import Mathlib

/-!
# Trip Guide response normalization — verification development

Shallow embedding of `src/services/trip-guide.ts`: the response-normalization
core (`cleanResponseMessage` and the variants of `sendMessageToTripGuide`).
The transport layer (fetch, response.text()) is external I/O; the embedding
starts where the code has the HTTP status, the ok flag and the body text in
hand, exactly the boundary the spec's `normalize(status, isOk, bodyText)`
contract describes.

JavaScript's `JSON.parse` / `JSON.stringify` are modelled by an executable
parser/serializer over a `Json` value type. Model boundaries, noted where
relevant:
* numbers keep their raw lexeme (the program never uses numeric values;
  truthiness of a number is decided from the lexeme);
* lone UTF-16 surrogates in `\uXXXX` escapes are rejected (Lean strings hold
  unicode scalar values); surrogate pairs are combined as in JS.
-/

/-- JSON values as produced by `JSON.parse`. Object fields keep their parse
order; duplicate keys are resolved at lookup time (last occurrence wins,
matching the value `JSON.parse` leaves on the object). -/
inductive Json where
  | null : Json
  | bool : Bool → Json
  | num : String → Json
  | str : String → Json
  | arr : List Json → Json
  | obj : List (String × Json) → Json

namespace Json

/-- Property lookup on a parsed object: last binding for the key wins
(duplicate keys in the JSON text overwrite, as in JS). -/
def lookupLast (k : String) : List (String × Json) → Option Json
  | [] => none
  | (k', v) :: rest =>
    match lookupLast k rest with
    | some r => some r
    | none => if k' = k then some v else none

/-- JS property access `j.k` on a parsed value: `undefined` is `none`.
Non-objects (including arrays, whose only properties are indices/length,
never the names this program reads) yield `undefined`. -/
def jsField : Json → String → Option Json
  | .obj kvs, k => lookupLast k kvs
  | _, _ => none

/-- JS optional chaining `x?.k`: `null`/`undefined` short-circuit to
`undefined`; otherwise ordinary property access. -/
def optChain (v : Option Json) (k : String) : Option Json :=
  match v with
  | none => none
  | some .null => none
  | some j => jsField j k

/-- Is every mantissa digit of a JSON number lexeme zero (so the JS number
value is `±0`, hence falsy)? The exponent cannot change zeroness. -/
def numLexIsZero (lex : String) : Bool :=
  let mantissa := (lex.takeWhile (fun c => c ≠ 'e' ∧ c ≠ 'E')).toList
  mantissa.all (fun c => c = '0' ∨ c = '-' ∨ c = '.')

/-- JS truthiness of a parsed JSON value: `null`, `false`, `""` and `±0` are
falsy; objects and arrays are always truthy. -/
def truthy : Json → Bool
  | .null => false
  | .bool b => b
  | .str s => s ≠ ""
  | .num lex => !numLexIsZero lex
  | .arr _ => true
  | .obj _ => true

/-- `typeof j === 'string' ? some it : none`. -/
def getStr : Json → Option String
  | .str s => some s
  | _ => none

end Json

/-! ## JSON.parse model: recursive-descent parser -/

/-- JSON insignificant whitespace. -/
def jsonWs (c : Char) : Bool :=
  c = ' ' || c = '\t' || c = '\n' || c = '\r'

/-- Skip leading JSON whitespace. -/
def skipWs : List Char → List Char
  | c :: cs => if jsonWs c then skipWs cs else c :: cs
  | [] => []

/-- Hex digit value. -/
def hexVal (c : Char) : Option Nat :=
  if '0' ≤ c ∧ c ≤ '9' then some (c.toNat - '0'.toNat)
  else if 'a' ≤ c ∧ c ≤ 'f' then some (c.toNat - 'a'.toNat + 10)
  else if 'A' ≤ c ∧ c ≤ 'F' then some (c.toNat - 'A'.toNat + 10)
  else none

/-- Four hex digits to a code unit. -/
def hex4 (a b c d : Char) : Option Nat := do
  let va ← hexVal a
  let vb ← hexVal b
  let vc ← hexVal c
  let vd ← hexVal d
  pure (((va * 16 + vb) * 16 + vc) * 16 + vd)

/-- Body of a JSON string literal, after the opening quote: returns the
decoded characters and the input remaining after the closing quote.
`\uXXXX` surrogate pairs are combined; a lone surrogate is rejected
(unrepresentable as a unicode scalar). -/
def parseStrBody : List Char → Option (List Char × List Char)
  | '"' :: rest => some ([], rest)
  | '\\' :: 'u' :: h1 :: h2 :: h3 :: h4 :: rest => do
    let n ← hex4 h1 h2 h3 h4
    if 0xD800 ≤ n ∧ n ≤ 0xDBFF then
      match rest with
      | '\\' :: 'u' :: g1 :: g2 :: g3 :: g4 :: rest2 => do
        let m ← hex4 g1 g2 g3 g4
        if 0xDC00 ≤ m ∧ m ≤ 0xDFFF then
          let (cs, rem) ← parseStrBody rest2
          pure (Char.ofNat (0x10000 + (n - 0xD800) * 0x400 + (m - 0xDC00)) :: cs, rem)
        else none
      | _ => none
    else if 0xDC00 ≤ n ∧ n ≤ 0xDFFF then none
    else do
      let (cs, rem) ← parseStrBody rest
      pure (Char.ofNat n :: cs, rem)
  | '\\' :: e :: rest => do
    let c ← match e with
      | '"' => some '"'
      | '\\' => some '\\'
      | '/' => some '/'
      | 'b' => some (Char.ofNat 8)
      | 'f' => some (Char.ofNat 12)
      | 'n' => some '\n'
      | 'r' => some '\r'
      | 't' => some '\t'
      | _ => none
    let (cs, rem) ← parseStrBody rest
    pure (c :: cs, rem)
  | c :: rest =>
    if c.toNat < 0x20 then none
    else do
      let (cs, rem) ← parseStrBody rest
      pure (c :: cs, rem)
  | [] => none

/-- One or more decimal digits. -/
def parseDigits : List Char → Option (List Char × List Char)
  | c :: rest =>
    if c.isDigit then
      match parseDigits rest with
      | some (ds, rem) => some (c :: ds, rem)
      | none => some ([c], rest)
    else none
  | [] => none

/-- JSON number grammar `-?(0|[1-9][0-9]*)(\.[0-9]+)?([eE][+-]?[0-9]+)?`;
returns the raw lexeme. -/
def parseNumber (cs : List Char) : Option (List Char × List Char) := do
  let (sign, cs1) := match cs with
    | '-' :: rest => (['-'], rest)
    | _ => ([], cs)
  let (intPart, cs2) ← parseDigits cs1
  let _ ← if intPart.length > 1 ∧ intPart.headD '0' = '0' then none else some ()
  let (fracPart, cs3) := match cs2 with
    | '.' :: rest =>
      match parseDigits rest with
      | some (ds, rem) => (some ('.' :: ds), rem)
      | none => (none, cs2)
    | _ => (some [], cs2)
  let fp ← fracPart
  let (expPart, cs4) := match cs3 with
    | e :: rest =>
      if e = 'e' ∨ e = 'E' then
        let (sgn, rest2) := match rest with
          | s :: r2 => if s = '+' ∨ s = '-' then ([s], r2) else ([], rest)
          | [] => ([], rest)
        match parseDigits rest2 with
        | some (ds, rem) => (some (e :: (sgn ++ ds)), rem)
        | none => (none, cs3)
      else (some [], cs3)
    | [] => (some [], cs3)
  let ep ← expPart
  pure (sign ++ intPart ++ fp ++ ep, cs4)

mutual

/-- Parse one JSON value (fuel-indexed recursive descent). -/
def parseVal : Nat → List Char → Option (Json × List Char)
  | 0, _ => none
  | fuel + 1, cs =>
    match skipWs cs with
    | 'n' :: 'u' :: 'l' :: 'l' :: rest => some (.null, rest)
    | 't' :: 'r' :: 'u' :: 'e' :: rest => some (.bool true, rest)
    | 'f' :: 'a' :: 'l' :: 's' :: 'e' :: rest => some (.bool false, rest)
    | '"' :: rest =>
      match parseStrBody rest with
      | some (cs', rem) => some (.str (String.mk cs'), rem)
      | none => none
    | '[' :: rest =>
      (match skipWs rest with
       | ']' :: rem => some (.arr [], rem)
       | cs' =>
         match parseElems fuel cs' with
         | some (xs, rem) => some (.arr xs, rem)
         | none => none)
    | '{' :: rest =>
      (match skipWs rest with
       | '}' :: rem => some (.obj [], rem)
       | cs' =>
         match parseMembers fuel cs' with
         | some (kvs, rem) => some (.obj kvs, rem)
         | none => none)
    | cs' =>
      match parseNumber cs' with
      | some (lex, rem) => some (.num (String.mk lex), rem)
      | none => none

/-- Comma-separated array elements, then the closing bracket. -/
def parseElems : Nat → List Char → Option (List Json × List Char)
  | 0, _ => none
  | fuel + 1, cs => do
    let (v, rem) ← parseVal fuel cs
    match skipWs rem with
    | ',' :: rest =>
      let (xs, rem2) ← parseElems fuel rest
      pure (v :: xs, rem2)
    | ']' :: rest => pure ([v], rest)
    | _ => none

/-- Comma-separated object members, then the closing brace. -/
def parseMembers : Nat → List Char → Option (List (String × Json) × List Char)
  | 0, _ => none
  | fuel + 1, cs =>
    match skipWs cs with
    | '"' :: rest => do
      let (kcs, rem) ← parseStrBody rest
      match skipWs rem with
      | ':' :: rest2 => do
        let (v, rem2) ← parseVal fuel rest2
        match skipWs rem2 with
        | ',' :: rest3 =>
          let (kvs, rem3) ← parseMembers fuel rest3
          pure ((String.mk kcs, v) :: kvs, rem3)
        | '}' :: rest3 => pure ([(String.mk kcs, v)], rest3)
        | _ => none
      | _ => none
    | _ => none

end

/-- `JSON.parse(s)`: `none` models a thrown `SyntaxError`. The fuel
`s.length + 1` dominates the nesting depth, since every nested value
consumes at least its opening token first. -/
def parseJson (s : String) : Option Json :=
  match parseVal (s.length + 1) s.toList with
  | some (j, rem) => if skipWs rem = [] then some j else none
  | none => none

/-! ## JSON.stringify model -/

/-- `JSON.stringify` escaping of one character inside a string literal. -/
def escapeChar (c : Char) : List Char :=
  if c = '"' then ['\\', '"']
  else if c = '\\' then ['\\', '\\']
  else if c = '\n' then ['\\', 'n']
  else if c = '\r' then ['\\', 'r']
  else if c = '\t' then ['\\', 't']
  else if c.toNat = 8 then ['\\', 'b']
  else if c.toNat = 12 then ['\\', 'f']
  else if c.toNat < 0x20 then
    let hx := fun (n : Nat) => if n < 10 then Char.ofNat ('0'.toNat + n) else Char.ofNat ('a'.toNat + n - 10)
    ['\\', 'u', '0', '0', hx (c.toNat / 16), hx (c.toNat % 16)]
  else [c]

/-- `JSON.stringify` of a string value. -/
def stringifyStr (s : String) : String :=
  "\"" ++ String.mk (s.toList.flatMap escapeChar) ++ "\""

mutual

/-- `JSON.stringify(j)` (no indentation, fields in insertion order). -/
def stringify : Json → String
  | .null => "null"
  | .bool true => "true"
  | .bool false => "false"
  | .num lex => lex
  | .str s => stringifyStr s
  | .arr xs => "[" ++ stringifyList xs ++ "]"
  | .obj kvs => "\x7b" ++ stringifyMembers kvs ++ "\x7d"

/-- Array elements, comma separated. -/
def stringifyList : List Json → String
  | [] => ""
  | [x] => stringify x
  | x :: rest => stringify x ++ "," ++ stringifyList rest

/-- Object members, comma separated. -/
def stringifyMembers : List (String × Json) → String
  | [] => ""
  | [(k, v)] => stringifyStr k ++ ":" ++ stringify v
  | (k, v) :: rest => stringifyStr k ++ ":" ++ stringify v ++ "," ++ stringifyMembers rest

end

/-! ## Substring checks (for stating the leak/occurrence properties) -/

/-- Is `pat` a prefix of `l`? -/
def leadsWith : List Char → List Char → Bool
  | [], _ => true
  | _ :: _, [] => false
  | p :: ps, c :: cs => p = c && leadsWith ps cs

/-- Does `l` contain `pat` as a contiguous run? -/
def containsSeq (pat : List Char) : List Char → Bool
  | [] => pat.isEmpty
  | c :: cs => leadsWith pat (c :: cs) || containsSeq pat cs

/-- Does the string contain the two-character literal backslash-n? -/
def containsLF (s : String) : Bool := containsSeq ['\\', 'n'] s.toList

/-- Does the string contain a backslash at all? -/
def hasBackslash (s : String) : Bool := s.toList.any (fun c => c = '\\')

/-- JS `s.startsWith(pre)`: is `pre` a literal prefix of `s`? -/
def jsStartsWith (s pre : String) : Bool := leadsWith pre.toList s.toList

/-! ## cleanResponseMessage -/

/-- The regex replace `s.replace(/\\n/g, '\n')` on the character list:
leftmost, non-overlapping scan replacing each literal backslash-n pair by a
newline character. -/
def replaceLF : List Char → List Char
  | [] => []
  | [c] => [c]
  | c1 :: c2 :: rest =>
    if c1 = '\\' ∧ c2 = 'n' then '\n' :: replaceLF rest
    else c1 :: replaceLF (c2 :: rest)

/-- `rawMessage.replace(/\\n/g, '\n')`. -/
def replaceEscapedNewlines (s : String) : String :=
  String.mk (replaceLF s.toList)

/-- The JSON-array unwrap attempted by `cleanResponseMessage`: parse the
message, and if it is a non-empty array whose first element is a non-null
object (`typeof parsed[0] === 'object'`) with a string field `output`,
return that string. The `none` result covers both a failed parse (the
caught exception) and a parse of any other shape. -/
def arrayOutputExtract (s : String) : Option String :=
  match parseJson s with
  | some (.arr (first :: _)) =>
    match first with
    | .obj _ | .arr _ =>
      match first.jsField "output" with
      | some (.str out) => some out
      | _ => none
    | _ => none
  | _ => none

/-- `cleanResponseMessage` (trip-guide.ts, first variant, lines 26–47):
try the `[{"output":"..."}]` unwrap, keeping the raw input when parsing
fails or the shape differs, then replace every literal `\n` escape with a
real newline. -/
def cleanResponseMessage (rawMessage : String) : String :=
  let cleanedMessage :=
    match parseJson rawMessage with
    | some (.arr (first :: _)) =>
      (match first with
       | .obj _ | .arr _ =>
         (match first.jsField "output" with
          | some (.str out) => out
          | _ => rawMessage)
       | _ => rawMessage)
    | _ => rawMessage
  replaceEscapedNewlines cleanedMessage

/-! ## sendMessageToTripGuide, first variant (lines 59–136) -/

/-- Errors thrown past the transport boundary by the normalization code. -/
inductive TGError where
  | httpStatus : Nat → String → TGError
  | unreadableStructure : TGError
deriving DecidableEq, Repr

/-- The literal guard prefix `[{"output":`. -/
def outMarker : String := "[\x7b\"output\":"

/-- The literal guard prefix `{"body":`. -/
def bodyMarker : String := "\x7b\"body\":"

/-- The extraction attempt of the first variant (lines 107–123):
`responseData?.body?.message && typeof responseData.body.message === 'string'`.
The chained access must produce a string, and truthiness requires it to be
non-empty; every other outcome (parse failure included) keeps the raw text. -/
def bodyMessageCandidate (responseText : String) : Option String :=
  match parseJson responseText with
  | none => none
  | some responseData =>
    match Json.optChain (Json.optChain (some responseData) "body") "message" with
    | some (.str s) => if s = "" then none else some s
    | _ => none

/-- `sendMessageToTripGuide` (first variant, lines 59–136) from the point
where status, ok flag and body text are known. Non-ok HTTP throws with the
status; otherwise the `body.message` candidate (or the raw text) is cleaned,
and a cleaned result still starting with a wrapper marker throws the
unreadable-structure error. -/
def sendMessageToTripGuide1 (status : Nat) (ok : Bool) (statusText responseText : String) :
    Except TGError String :=
  if !ok then .error (.httpStatus status statusText)
  else
    let messageToClean := (bodyMessageCandidate responseText).getD responseText
    let finalMessage := cleanResponseMessage messageToClean
    if jsStartsWith finalMessage outMarker || jsStartsWith finalMessage bodyMarker then
      .error .unreadableStructure
    else
      .ok finalMessage

/-! ## sendMessageToTripGuide, second variant (lines 161–226) -/

/-- Fixed reply of the second variant when the JSON lacks `body.message`. -/
def unexpectedFormatMsg : String :=
  "Sorry, I received an unexpected response format from the Trip Guide."

/-- Fixed reply of the second variant when the body is not valid JSON. -/
def unreadableMsg : String := "Sorry, I received an unreadable response."

/-- The structure check of the second variant (line 213): `responseData &&
typeof responseData === 'object' && responseData.body && typeof
responseData.body === 'object' && typeof responseData.body.message ===
'string'`. Arrays pass the `typeof === 'object'` tests; `null` fails the
truthiness tests; the message string may be empty here. -/
def bodyMessageCandidate2 (responseData : Json) : Option String :=
  match responseData with
  | .obj _ | .arr _ =>
    (match responseData.jsField "body" with
     | some body =>
       (match body with
        | .obj _ | .arr _ =>
          (match body.jsField "message" with
           | some (.str m) => some m
           | _ => none)
        | _ => none)
     | none => none)
  | _ => none

/-- `sendMessageToTripGuide` (second variant, lines 161–226): non-ok HTTP
throws; valid JSON with a string `body.message` returns it; valid JSON of
any other shape returns a fixed format-apology string; a body that is not
valid JSON returns a fixed unreadable-apology string. -/
def sendMessageToTripGuide2 (status : Nat) (ok : Bool) (statusText responseText : String) :
    Except TGError String :=
  if !ok then .error (.httpStatus status statusText)
  else
    match parseJson responseText with
    | some responseData =>
      (match bodyMessageCandidate2 responseData with
       | some m => .ok m
       | none => .ok unexpectedFormatMsg)
    | none => .ok unreadableMsg

/-! ## sendMessageToTripGuide, third variant (lines 251–293) -/

/-- Fallback notice of the third variant for non-object unrecognized data. -/
def fallbackNoticeMsg : String := "Received unexpected response format."

/-- The catch-all reply of the third variant: every error thrown inside it
(non-ok HTTP status and JSON parse failure included) is swallowed and this
string is returned as the reply. -/
def catchAllMsg : String :=
  "Sorry, I encountered an error trying to reach the Trip Guide. Please try again later."

/-- `typeof j === 'object'` (true for objects, arrays and null). -/
def isTypeofObject : Json → Bool
  | .obj _ => true
  | .arr _ => true
  | .null => true
  | _ => false

/-- Guarded string-field read `j && typeof j.k === 'string'`. -/
def truthyStrField (j : Json) (k : String) : Option String :=
  if j.truthy then
    match j.jsField k with
    | some (.str s) => some s
    | _ => none
  else none

/-- The else-branch of the third variant (lines 275–285): stringify objects
as the fallback, return the data itself when it is a string, then try the
`message` and `text` string fields, else return the fallback. -/
def v3Fallback (responseData : Json) : String :=
  let fallbackMessage :=
    if isTypeofObject responseData then stringify responseData else fallbackNoticeMsg
  match responseData.getStr with
  | some s => s
  | none =>
    match truthyStrField responseData "message" with
    | some m => m
    | none =>
      match truthyStrField responseData "text" with
      | some t => t
      | none => fallbackMessage

/-- `sendMessageToTripGuide` (third variant, lines 251–293): the whole body
sits in a try/catch whose catch returns `catchAllMsg` as the reply, so a
non-ok status or an unparseable body (where `response.json()` throws)
produces that string instead of an error; recognized shapes are `reply`,
the value itself a string, `message`, `text`, in that order, and anything
else returns the stringified value (or a fixed notice for non-objects). -/
def sendMessageToTripGuide3 (status : Nat) (ok : Bool) (responseText : String) : String :=
  if !ok then catchAllMsg
  else
    match parseJson responseText with
    | none => catchAllMsg
    | some responseData =>
      match truthyStrField responseData "reply" with
      | some r => r
      | none => v3Fallback responseData

/-! ## Lemmas about the newline-escape replacement -/

/-- A string without the literal escape is left alone by the replacement. -/
theorem replaceLF_of_no_escape :
    ∀ cs : List Char, containsSeq ['\\', 'n'] cs = false → replaceLF cs = cs := by
  intro cs
  induction cs using replaceLF.induct with
  | case1 => intro _; rfl
  | case2 c => intro _; rfl
  | case3 c1 c2 rest h ih =>
    intro hno
    obtain ⟨h1, h2⟩ := h
    subst h1; subst h2
    simp [containsSeq, leadsWith] at hno
  | case4 c1 c2 rest h ih =>
    intro hno
    rw [replaceLF, if_neg h]
    have hno' : containsSeq ['\\', 'n'] (c2 :: rest) = false := by
      simp only [containsSeq, Bool.or_eq_false_iff] at hno ⊢
      exact hno.2
    rw [ih hno']

/-- The head of a replacement result headed by a non-`'n'` character cannot
be `'n'`, so no new escape occurrence can form across a replacement. -/
theorem leadsWith_n_replaceLF_cons (c2 : Char) (rest : List Char) (h : c2 ≠ 'n') :
    leadsWith ['n'] (replaceLF (c2 :: rest)) = false := by
  cases rest with
  | nil => simp [replaceLF, leadsWith, Ne.symm h]
  | cons c3 rest' =>
    rw [replaceLF]
    by_cases hc : c2 = '\\' ∧ c3 = 'n'
    · rw [if_pos hc]; simp [leadsWith]
    · rw [if_neg hc]; simp [leadsWith, Ne.symm h]

/-- The replacement output never contains the literal escape again. -/
theorem replaceLF_no_escape_out :
    ∀ cs : List Char, containsSeq ['\\', 'n'] (replaceLF cs) = false := by
  intro cs
  induction cs using replaceLF.induct with
  | case1 => rfl
  | case2 c => simp [replaceLF, containsSeq, leadsWith]
  | case3 c1 c2 rest h ih =>
    rw [replaceLF, if_pos h]
    simp [containsSeq, leadsWith, ih]
  | case4 c1 c2 rest h ih =>
    rw [replaceLF, if_neg h]
    simp only [containsSeq, Bool.or_eq_false_iff]
    refine ⟨?_, ih⟩
    by_cases hc1 : c1 = '\\'
    · have hc2 : c2 ≠ 'n' := fun hn => h ⟨hc1, hn⟩
      simp [leadsWith, leadsWith_n_replaceLF_cons c2 rest hc2]
    · simp [leadsWith, Ne.symm hc1]

/-- The replacement is idempotent. -/
theorem replaceLF_idem (cs : List Char) : replaceLF (replaceLF cs) = replaceLF cs :=
  replaceLF_of_no_escape _ (replaceLF_no_escape_out cs)

/-- Every occurrence of the literal escape after a backslash-free run is
turned into a newline, with the surrounding text preserved verbatim. -/
theorem replaceLF_append (pre post : List Char)
    (h : pre.all (fun c => c ≠ '\\') = true) :
    replaceLF (pre ++ '\\' :: 'n' :: post) = pre ++ '\n' :: replaceLF post := by
  induction pre with
  | nil => rw [List.nil_append, replaceLF, if_pos ⟨rfl, rfl⟩]; rfl
  | cons c pre' ih =>
    simp only [List.all_cons, Bool.and_eq_true, decide_eq_true_eq] at h
    cases hx : pre' ++ '\\' :: 'n' :: post with
    | nil => exact absurd hx (by simp)
    | cons d ds =>
      rw [List.cons_append, hx, replaceLF, if_neg (fun hh => h.1 hh.1), ← hx,
        ih (by simpa using h.2)]
      rfl

/-- String-level: replacement is the identity on strings without the
literal escape. -/
theorem replaceEscapedNewlines_of_no_escape (s : String) (h : containsLF s = false) : replaceEscapedNewlines s = s := by
  unfold replaceEscapedNewlines
  rw [replaceLF_of_no_escape _ h]
  rfl

/-- String-level idempotence of the replacement. -/
theorem replaceEscapedNewlines_idem (s : String) :
    replaceEscapedNewlines (replaceEscapedNewlines s) = replaceEscapedNewlines s := by
  show String.mk (replaceLF (String.toList (String.mk (replaceLF s.toList)))) = _
  have ht : String.toList (String.mk (replaceLF s.toList)) = replaceLF s.toList := rfl
  rw [ht, replaceLF_idem]
  rfl

/-- String-level: each literal escape occurrence after a backslash-free
run becomes a newline, everything around it kept verbatim. -/
theorem replaceEscapedNewlines_append (pre post : String) (h : hasBackslash pre = false) :
    replaceEscapedNewlines (pre ++ "\\n" ++ post) = pre ++ "\n" ++ replaceEscapedNewlines post := by
  have hall : pre.toList.all (fun c => c ≠ '\\') = true := by
    simp only [hasBackslash, List.any_eq_false, decide_eq_true_eq] at h
    simp only [List.all_eq_true, decide_eq_true_eq]
    exact h
  apply String.ext
  show replaceLF (pre ++ "\\n" ++ post).data = (pre ++ "\n" ++ String.mk (replaceLF post.toList)).data
  simp only [String.data_append]
  rw [List.append_assoc, List.append_assoc]
  exact replaceLF_append pre.data post.data hall

/-- `cleanResponseMessage` factored: the array-output unwrap attempt (raw
input kept when it fails, parse failure included) followed by the newline
replacement. -/
theorem cleanResponseMessage_factored (s : String) :
    cleanResponseMessage s = replaceEscapedNewlines ((arrayOutputExtract s).getD s) := by
  unfold cleanResponseMessage arrayOutputExtract
  cases hp : parseJson s with
  | none => rfl
  | some j =>
    cases j with
    | null => rfl
    | bool b => rfl
    | num lex => rfl
    | str t => rfl
    | obj kvs => rfl
    | arr xs =>
      cases xs with
      | nil => rfl
      | cons first rest =>
        cases first with
        | null => rfl
        | bool b => rfl
        | num lex => rfl
        | str t => rfl
        | arr ys => rfl
        | obj kvs =>
          show replaceEscapedNewlines
              (match (Json.obj kvs).jsField "output" with
                | some (.str out) => out
                | _ => s) =
            replaceEscapedNewlines
              ((match (Json.obj kvs).jsField "output" with
                | some (.str out) => some out
                | _ => none).getD s)
          cases hf : (Json.obj kvs).jsField "output" with
          | none => rfl
          | some v => cases v <;> rfl

/-- Unfolding of the first variant on an ok response: candidate (or raw
text), cleaning, then the wrapper-marker guard. -/
theorem sendMessageToTripGuide1_ok (status : Nat) (st text : String) :
    sendMessageToTripGuide1 status true st text =
      if (jsStartsWith (cleanResponseMessage ((bodyMessageCandidate text).getD text)) outMarker
          || jsStartsWith (cleanResponseMessage ((bodyMessageCandidate text).getD text)) bodyMarker) = true
      then .error .unreadableStructure
      else .ok (cleanResponseMessage ((bodyMessageCandidate text).getD text)) := rfl

/-! ## Claim theorems -/

/-- C1 (counterexample): for the HTTP-success body `{"foo":"bar"}` — valid
JSON matching no recognized reply shape — the first variant returns the raw
JSON text itself as the reply, which contains the substring `{"foo`; no
`UnrecognizedShape`-style failure is reported. -/
theorem claimC1_counterexample :
    sendMessageToTripGuide1 200 true "OK" "\x7b\"foo\":\"bar\"\x7d" =
      .ok "\x7b\"foo\":\"bar\"\x7d" ∧
    containsSeq ("\x7b\"foo").toList ("\x7b\"foo\":\"bar\"\x7d").toList = true :=
  ⟨rfl, rfl⟩

/-- C1 (amended): the only raw-structure guard of the first variant is the
literal-prefix check — a success reply never starts with `[{"output":` or
`{"body":` — while any other unrecognized JSON body (such as
`{"foo":"bar"}`) is returned verbatim as the visible reply. -/
theorem claimC1_amended :
    (∀ (status : Nat) (st text s : String),
      sendMessageToTripGuide1 status true st text = .ok s →
      jsStartsWith s outMarker = false ∧ jsStartsWith s bodyMarker = false) ∧
    sendMessageToTripGuide1 200 true "OK" "\x7b\"foo\":\"bar\"\x7d" =
      .ok "\x7b\"foo\":\"bar\"\x7d" := by
  constructor
  · intro status st text s h
    rw [sendMessageToTripGuide1_ok] at h
    split at h
    · exact absurd h (by simp)
    · next hg =>
      injection h with h'
      subst h'
      simp only [Bool.or_eq_true, not_or, Bool.not_eq_true] at hg
      exact ⟨hg.1, hg.2⟩
  · rfl

/-- C1 (witness for the amended theorem). -/
theorem claimC1_witness :
    jsStartsWith "hello" outMarker = false ∧ jsStartsWith "hello" bodyMarker = false :=
  claimC1_amended.1 200 "OK" "hello" "hello" rfl

/-- C2 (counterexample): the claimed priority list is not implemented. The
first variant returns the raw body text — not `"hi"` — for
`{"reply":"hi"}`, and the third variant stringifies `{"body":{"message":"x"}}`
back to raw JSON instead of extracting `"x"` (shape (a) is not tried). -/
theorem claimC2_counterexample :
    sendMessageToTripGuide1 200 true "OK" "\x7b\"reply\":\"hi\"\x7d" =
      .ok "\x7b\"reply\":\"hi\"\x7d" ∧
    ("\x7b\"reply\":\"hi\"\x7d" : String) ≠ "hi" ∧
    sendMessageToTripGuide3 200 true "\x7b\"body\":\x7b\"message\":\"x\"\x7d\x7d" =
      "\x7b\"body\":\x7b\"message\":\"x\"\x7d\x7d" ∧
    ("\x7b\"body\":\x7b\"message\":\"x\"\x7d\x7d" : String) ≠ "x" :=
  ⟨rfl, by decide, rfl, by decide⟩

/-- C2 (amended): only the third variant recognizes `reply`, and its order
is `reply`, then the value itself a string, then `message`, then `text`,
with the stringified value as fallback instead of a failure; under it
`{"reply":"hi"}` yields `"hi"`. The first variant knows only `body.message`
(and the array-output unwrap inside cleaning) and falls back to raw text. -/
theorem claimC2_amended :
    sendMessageToTripGuide3 200 true "\x7b\"reply\":\"hi\"\x7d" = "hi" ∧
    (∀ (status : Nat) (text : String) (j : Json) (r : String),
      parseJson text = some j → truthyStrField j "reply" = some r →
      sendMessageToTripGuide3 status true text = r) ∧
    (∀ (status : Nat) (text : String) (j : Json) (m : String),
      parseJson text = some j → truthyStrField j "reply" = none →
      j.getStr = none → truthyStrField j "message" = some m →
      sendMessageToTripGuide3 status true text = m) ∧
    (∀ (status : Nat) (text : String) (j : Json) (t : String),
      parseJson text = some j → truthyStrField j "reply" = none →
      j.getStr = none → truthyStrField j "message" = none →
      truthyStrField j "text" = some t →
      sendMessageToTripGuide3 status true text = t) := by
  refine ⟨rfl, ?_, ?_, ?_⟩
  · intro status text j r hp hr
    simp [sendMessageToTripGuide3, hp, hr]
  · intro status text j m hp hr hgs hm
    simp [sendMessageToTripGuide3, v3Fallback, hp, hr, hgs, hm]
  · intro status text j t hp hr hgs hm ht
    simp [sendMessageToTripGuide3, v3Fallback, hp, hr, hgs, hm, ht]

/-- C2 (witness): the third variant prefers `reply` over `message` in one
object, and falls through to `message` resp. `text` when earlier shapes
are absent. -/
theorem claimC2_witness :
    sendMessageToTripGuide3 200 true "\x7b\"reply\":\"b\",\"message\":\"a\"\x7d" = "b" ∧
    sendMessageToTripGuide3 200 true "\x7b\"message\":\"a\"\x7d" = "a" ∧
    sendMessageToTripGuide3 200 true "\x7b\"text\":\"t\"\x7d" = "t" :=
  ⟨claimC2_amended.2.1 200 _ (Json.obj [("reply", .str "b"), ("message", .str "a")]) "b" rfl rfl,
   claimC2_amended.2.2.1 200 _ (Json.obj [("message", .str "a")]) "a" rfl rfl rfl rfl,
   claimC2_amended.2.2.2 200 _ (Json.obj [("text", .str "t")]) "t" rfl rfl rfl rfl rfl⟩

/-- C3 (code evaluated at the failing input): on HTTP status 500 the first
variant throws the status-carrying error as documented, but the third
variant's catch-all swallows the thrown error and returns the fixed
catch-all string as an ordinary reply — contradicting its own doc comment
(`@throws ... if the network request fails or the response is not ok`). -/
theorem claimC3 :
    sendMessageToTripGuide1 500 false "Internal Server Error" "error body" =
      .error (.httpStatus 500 "Internal Server Error") ∧
    sendMessageToTripGuide3 500 false "error body" = catchAllMsg :=
  ⟨rfl, rfl⟩

/-- C4 (counterexample): not every unparseable plain-text body comes back
unchanged. A plain text that merely begins with `{"body":` makes the first
variant throw the unreadable-structure error, and the second variant
replaces every unparseable body by a fixed apology string. -/
theorem claimC4_counterexample :
    parseJson "\x7b\"body\": oops" = none ∧
    sendMessageToTripGuide1 200 true "OK" "\x7b\"body\": oops" =
      .error .unreadableStructure ∧
    parseJson "hello" = none ∧
    sendMessageToTripGuide2 200 true "OK" "hello" = .ok unreadableMsg ∧
    unreadableMsg ≠ "hello" :=
  ⟨rfl, rfl, rfl, rfl, by decide⟩

/-- C4 (amended): in the first variant a parse failure is indeed not fatal —
the raw text becomes the candidate and is returned after newline-escape
cleaning (the identity when no backslash-n literal occurs) — provided the
cleaned text does not begin with a wrapper marker; the second variant
returns its fixed unreadable-apology string instead of the raw body. -/
theorem claimC4_amended :
    (∀ (status : Nat) (st text : String),
      parseJson text = none →
      jsStartsWith (replaceEscapedNewlines text) outMarker = false →
      jsStartsWith (replaceEscapedNewlines text) bodyMarker = false →
      sendMessageToTripGuide1 status true st text = .ok (replaceEscapedNewlines text) ∧
      (containsLF text = false → sendMessageToTripGuide1 status true st text = .ok text)) ∧
    (∀ (status : Nat) (st text : String),
      parseJson text = none →
      sendMessageToTripGuide2 status true st text = .ok unreadableMsg) := by
  constructor
  · intro status st text hp h1 h2
    have hbmc : bodyMessageCandidate text = none := by
      unfold bodyMessageCandidate; rw [hp]
    have hax : arrayOutputExtract text = none := by
      unfold arrayOutputExtract; rw [hp]
    have hclean : cleanResponseMessage text = replaceEscapedNewlines text := by
      rw [cleanResponseMessage_factored, hax]; rfl
    have hmain : sendMessageToTripGuide1 status true st text = .ok (replaceEscapedNewlines text) := by
      rw [sendMessageToTripGuide1_ok, hbmc]
      simp only [Option.getD_none, hclean, h1, h2, Bool.or_self]
      rfl
    refine ⟨hmain, fun hnl => ?_⟩
    rw [hmain, replaceEscapedNewlines_of_no_escape text hnl]
  · intro status st text hp
    unfold sendMessageToTripGuide2
    rw [hp]
    rfl

/-- C4 (witness). -/
theorem claimC4_witness :
    sendMessageToTripGuide1 200 true "OK" "plain text" = .ok "plain text" ∧
    sendMessageToTripGuide2 200 true "OK" "plain text" = .ok unreadableMsg :=
  ⟨(claimC4_amended.1 200 "OK" "plain text" rfl rfl rfl).2 rfl,
   claimC4_amended.2 200 "OK" "plain text" rfl⟩

/-- C5: cleaning turns every literal backslash-n into a real newline and
touches nothing else — it preserves the surrounding text verbatim and is
the identity when no literal occurs; for the body
`{"body":{"message":"hi\\nthere"}}` the first variant returns
`Success("hi\nthere")` with a real newline. -/
theorem claimC5 :
    sendMessageToTripGuide1 200 true "OK"
        "\x7b\"body\":\x7b\"message\":\"hi\\\\nthere\"\x7d\x7d" = .ok "hi\nthere" ∧
    (∀ pre post : String, hasBackslash pre = false →
      replaceEscapedNewlines (pre ++ "\\n" ++ post) =
        pre ++ "\n" ++ replaceEscapedNewlines post) ∧
    (∀ s : String, containsLF s = false → replaceEscapedNewlines s = s) :=
  ⟨rfl, replaceEscapedNewlines_append, replaceEscapedNewlines_of_no_escape⟩

/-- C5 (witness). -/
theorem claimC5_witness :
    replaceEscapedNewlines ("ab" ++ "\\n" ++ "cd\\nef") =
      "ab" ++ "\n" ++ replaceEscapedNewlines "cd\\nef" ∧
    replaceEscapedNewlines "plain" = "plain" :=
  ⟨claimC5.2.1 "ab" "cd\\nef" rfl, claimC5.2.2 "plain" rfl⟩

/-- C6: the newline-escape cleaning is idempotent, and every success reply
of the first variant is a fixed point of it (the reply was produced by the
cleaning step, which never leaves a literal backslash-n behind). -/
theorem claimC6 :
    (∀ s : String,
      replaceEscapedNewlines (replaceEscapedNewlines s) = replaceEscapedNewlines s) ∧
    (∀ (status : Nat) (st text r : String),
      sendMessageToTripGuide1 status true st text = .ok r →
      replaceEscapedNewlines r = r) := by
  refine ⟨replaceEscapedNewlines_idem, ?_⟩
  intro status st text r h
  rw [sendMessageToTripGuide1_ok] at h
  split at h
  · exact absurd h (by simp)
  · injection h with h'
    rw [← h', cleanResponseMessage_factored]
    exact replaceEscapedNewlines_idem _

/-- C6 (witness). -/
theorem claimC6_witness :
    replaceEscapedNewlines (replaceEscapedNewlines "a\\nb") =
      replaceEscapedNewlines "a\\nb" ∧
    replaceEscapedNewlines "hello" = "hello" :=
  ⟨claimC6.1 "a\\nb", claimC6.2 200 "OK" "hello" "hello" rfl⟩

/-- C7 (counterexample): the round-trip fails for a candidate with no
backslash-n literal and no wrapper prefix: `[ {"output":"y"}]` embedded as
`body.message` is re-parsed by the cleaning step and collapses to `"y"`,
and the empty candidate (falsy in JS) is not extracted at all, so its
minimal body trips the wrapper guard and throws. -/
theorem claimC7_counterexample :
    containsLF "[ \x7b\"output\":\"y\"\x7d]" = false ∧
    jsStartsWith "[ \x7b\"output\":\"y\"\x7d]" outMarker = false ∧
    jsStartsWith "[ \x7b\"output\":\"y\"\x7d]" bodyMarker = false ∧
    parseJson "\x7b\"body\":\x7b\"message\":\"[ \x7b\\\"output\\\":\\\"y\\\"\x7d]\"\x7d\x7d" =
      some (Json.obj [("body", Json.obj [("message", Json.str "[ \x7b\"output\":\"y\"\x7d]")])]) ∧
    sendMessageToTripGuide1 200 true "OK"
        "\x7b\"body\":\x7b\"message\":\"[ \x7b\\\"output\\\":\\\"y\\\"\x7d]\"\x7d\x7d" = .ok "y" ∧
    ("y" : String) ≠ "[ \x7b\"output\":\"y\"\x7d]" ∧
    sendMessageToTripGuide1 200 true "OK" "\x7b\"body\":\x7b\"message\":\"\"\x7d\x7d" =
      .error .unreadableStructure :=
  ⟨rfl, rfl, rfl, rfl, rfl, by decide, rfl⟩

/-- C7 (amended): the round-trip holds for every non-empty candidate with
no backslash-n literal and no wrapper prefix that the cleaning step cannot
re-parse as an array-output wrapper: the first variant returns it exactly
from the minimal body `{"body":{"message":candidate}}`. -/
theorem claimC7_amended :
    ∀ (status : Nat) (st text s : String),
      parseJson text = some (Json.obj [("body", Json.obj [("message", Json.str s)])]) →
      s ≠ "" →
      containsLF s = false →
      arrayOutputExtract s = none →
      jsStartsWith s outMarker = false →
      jsStartsWith s bodyMarker = false →
      sendMessageToTripGuide1 status true st text = .ok s := by
  intro status st text s hp hne hnl hax h1 h2
  have hbmc : bodyMessageCandidate text = some s := by
    unfold bodyMessageCandidate
    rw [hp]
    simp [Json.optChain, Json.jsField, Json.lookupLast, hne]
  have hclean : cleanResponseMessage s = s := by
    rw [cleanResponseMessage_factored, hax]
    exact replaceEscapedNewlines_of_no_escape s hnl
  rw [sendMessageToTripGuide1_ok, hbmc]
  simp only [Option.getD_some, hclean, h1, h2, Bool.or_self]
  rfl

/-- C7 (witness). -/
theorem claimC7_witness :
    sendMessageToTripGuide1 200 true "OK" "\x7b\"body\":\x7b\"message\":\"hello\"\x7d\x7d" =
      .ok "hello" :=
  claimC7_amended 200 "OK" _ "hello" rfl (by decide) rfl rfl rfl rfl

/-- C8: whenever no candidate is extracted (neither `body.message` nor the
array-output unwrap) and the newline-cleaned body text begins with
`[{"output":` or `{"body":`, the first variant throws the
unreadable-structure error instead of returning that text as the reply —
legitimate plain text starting with such a prefix included. -/
theorem claimC8 :
    ∀ (status : Nat) (st text : String),
      bodyMessageCandidate text = none →
      arrayOutputExtract text = none →
      (jsStartsWith (replaceEscapedNewlines text) outMarker = true ∨
       jsStartsWith (replaceEscapedNewlines text) bodyMarker = true) →
      sendMessageToTripGuide1 status true st text = .error .unreadableStructure := by
  intro status st text hbmc hax hg
  have hclean : cleanResponseMessage text = replaceEscapedNewlines text := by
    rw [cleanResponseMessage_factored, hax]; rfl
  have hor : (jsStartsWith (replaceEscapedNewlines text) outMarker
      || jsStartsWith (replaceEscapedNewlines text) bodyMarker) = true := by
    rcases hg with hg | hg <;> simp [hg]
  rw [sendMessageToTripGuide1_ok, hbmc]
  simp only [Option.getD_none, hclean, hor]
  rfl

/-- C8 (witness): plain text beginning with `{"body":` is rejected. -/
theorem claimC8_witness :
    sendMessageToTripGuide1 200 true "OK" "\x7b\"body\": is plain text" =
      .error .unreadableStructure :=
  claimC8 200 "OK" "\x7b\"body\": is plain text" rfl rfl (Or.inr rfl)

/-- C9: `cleanResponseMessage` is total — on every input string it returns
the newline-replacement of the array-output unwrap attempt, where a failed
internal JSON parse (the caught exception) simply keeps the raw input. -/
theorem claimC9 :
    ∀ s : String,
      cleanResponseMessage s = replaceEscapedNewlines ((arrayOutputExtract s).getD s) :=
  cleanResponseMessage_factored

/-- C10: an empty HTTP-success body yields the empty reply in the first
variant — the parse fails, the empty raw text is the candidate, cleaning
is a no-op and the wrapper guard does not trigger. -/
theorem claimC10 :
    ∀ (status : Nat) (st : String),
      sendMessageToTripGuide1 status true st "" = .ok "" := by
  intro status st
  rfl
